import Mathlib

/-!
Shallow embedding of `src/box2d.rs` from servo/rust-geom: the
`TypedBox2D` value type (a box given by `min` and `max` corner points)
and the operations the claims concern. Coordinates are embedded as `ℚ`,
an exact linearly ordered field matching the generic numeric parameter
`T : Copy + PartialOrd + Add + Sub + ...` of the source. The phantom
unit tag `U` carries no runtime data and is dropped.

Collaborator types (`Point2D`, `Vector2D`, `Size2D`, `SideOffsets2D`)
are not under `src/`; they are modelled from the spec, which gives their
contract in its external-interfaces section: plain coordinate pairs with
componentwise arithmetic and componentwise `round`/`floor`/`ceil`.
-/

/-- Modelled from the spec: `Point2D<T,U>` collaborator, fields `x y`. -/
@[ext]
structure Point2D where
  x : ℚ
  y : ℚ
deriving DecidableEq, Repr

/-- Modelled from the spec: `Vector2D<T,U>` collaborator, fields `x y`. -/
structure Vector2D where
  x : ℚ
  y : ℚ
deriving DecidableEq, Repr

/-- Modelled from the spec: `Size2D<T,U>` collaborator, fields `width height`. -/
structure Size2D where
  width : ℚ
  height : ℚ
deriving DecidableEq, Repr

/-- Modelled from the spec: `SideOffsets2D<T,U>` collaborator, fields
`left top right bottom`. -/
structure SideOffsets2D where
  left : ℚ
  top : ℚ
  right : ℚ
  bottom : ℚ
deriving DecidableEq, Repr

/-- `TypedBox2D` from `src/box2d.rs`: an axis aligned rectangle
represented by its minimum and maximum coordinates. -/
@[ext]
structure Box2D where
  min : Point2D
  max : Point2D
deriving DecidableEq, Repr

/-- `point2(x, y)` constructor of the point collaborator. -/
def point2 (x y : ℚ) : Point2D := ⟨x, y⟩

/-- `vec2(x, y)` constructor of the vector collaborator. -/
def vec2 (x y : ℚ) : Vector2D := ⟨x, y⟩

/-- `size2(w, h)` constructor of the size collaborator. -/
def size2 (w h : ℚ) : Size2D := ⟨w, h⟩

/-- Modelled from the spec: `min` helper (module `approxord`, not under
`src/`); on a totally ordered coordinate type it returns the smaller
argument. -/
def amin (a b : ℚ) : ℚ := if a < b then a else b

/-- Modelled from the spec: `max` helper (module `approxord`, not under
`src/`); on a totally ordered coordinate type it returns the larger
argument. -/
def amax (a b : ℚ) : ℚ := if a > b then a else b

/-- Modelled from the spec: `p + v` on the point collaborator,
componentwise. -/
def Point2D.addv (p : Point2D) (v : Vector2D) : Point2D := ⟨p.x + v.x, p.y + v.y⟩

/-- Modelled from the spec: `p - v` on the point collaborator,
componentwise. -/
def Point2D.subv (p : Point2D) (v : Vector2D) : Point2D := ⟨p.x - v.x, p.y - v.y⟩

/-- Modelled from the spec: `p - q` on the point collaborator, yielding a
vector. -/
def Point2D.sub (p q : Point2D) : Vector2D := ⟨p.x - q.x, p.y - q.y⟩

/-- Modelled from the spec: `Vector2D::to_size`, reinterpreting the
coordinates as a size. -/
def Vector2D.to_size (v : Vector2D) : Size2D := ⟨v.x, v.y⟩

/-- Modelled from the spec: componentwise addition of sizes (used to state
`size() + (2w, 2h)`). -/
def Size2D.add (s t : Size2D) : Size2D := ⟨s.width + t.width, s.height + t.height⟩

/-- `round` on the coordinate type: the source documents it as
`floor(n + 0.5)` (values equal to 0.5 round up). -/
def rround (q : ℚ) : ℚ := ((⌊q + 1/2⌋ : ℤ) : ℚ)

/-- Modelled from the spec: `Point2D::round`, componentwise. -/
def Point2D.round (p : Point2D) : Point2D := ⟨rround p.x, rround p.y⟩

/-- Modelled from the spec: `Point2D::floor`, componentwise. -/
def Point2D.floor (p : Point2D) : Point2D := ⟨((⌊p.x⌋ : ℤ) : ℚ), ((⌊p.y⌋ : ℤ) : ℚ)⟩

/-- Modelled from the spec: `Point2D::ceil`, componentwise. -/
def Point2D.ceil (p : Point2D) : Point2D := ⟨((⌈p.x⌉ : ℤ) : ℚ), ((⌈p.y⌉ : ℤ) : ℚ)⟩

/-- `TypedBox2D::zero`: both corners at the origin. -/
def Box2D.zero : Box2D := ⟨⟨0, 0⟩, ⟨0, 0⟩⟩

/-- `TypedBox2D::is_negative`: `max.x < min.x || max.y < min.y`. -/
def Box2D.is_negative (b : Box2D) : Bool :=
  decide (b.max.x < b.min.x) || decide (b.max.y < b.min.y)

/-- `TypedBox2D::is_empty_or_negative`: `max.x <= min.x || max.y <= min.y`. -/
def Box2D.is_empty_or_negative (b : Box2D) : Bool :=
  decide (b.max.x ≤ b.min.x) || decide (b.max.y ≤ b.min.y)

/-- `TypedBox2D::is_empty`: `min.x == max.x || min.y == max.y`. -/
def Box2D.is_empty (b : Box2D) : Bool :=
  decide (b.min.x = b.max.x) || decide (b.min.y = b.max.y)

/-- The well-formedness predicate of the spec glossary:
`min.x ≤ max.x ∧ min.y ≤ max.y`. -/
def Box2D.is_well_formed (b : Box2D) : Bool :=
  decide (b.min.x ≤ b.max.x) && decide (b.min.y ≤ b.max.y)

/-- `TypedBox2D::intersects`, from the source: strict comparisons on all
four sides. -/
def Box2D.intersects (a other : Box2D) : Bool :=
  decide (a.min.x < other.max.x)
    && decide (a.max.x > other.min.x)
    && decide (a.min.y < other.max.y)
    && decide (a.max.y > other.min.y)

/-- `TypedBox2D::intersection`, from the source: componentwise `max` of
the `min` corners and `min` of the `max` corners. -/
def Box2D.intersection (a other : Box2D) : Box2D :=
  ⟨point2 (amax a.min.x other.min.x) (amax a.min.y other.min.y),
   point2 (amin a.max.x other.max.x) (amin a.max.y other.max.y)⟩

/-- `TypedBox2D::try_intersection`, from the source: `None` when the
computed intersection `is_negative()`, `Some` of it otherwise. -/
def Box2D.try_intersection (a other : Box2D) : Option Box2D :=
  let i := a.intersection other
  if i.is_negative then none else some i

/-- `TypedBox2D::contains`, from the source: `min.x <= p.x && p.x < max.x
&& min.y < p.y && p.y <= max.y`. -/
def Box2D.contains (b : Box2D) (other : Point2D) : Bool :=
  decide (b.min.x ≤ other.x) && decide (other.x < b.max.x)
    && decide (b.min.y < other.y) && decide (other.y ≤ b.max.y)

/-- `TypedBox2D::contains_box`, from the source: true when `other` is
empty, or when `other` is inside componentwise. -/
def Box2D.contains_box (b other : Box2D) : Bool :=
  other.is_empty
    || (decide (b.min.x ≤ other.min.x) && decide (other.max.x ≤ b.max.x)
        && decide (b.min.y ≤ other.min.y) && decide (other.max.y ≤ b.max.y))

/-- `TypedBox2D::size`: `(max - min)` reinterpreted as a size. -/
def Box2D.size (b : Box2D) : Size2D := (b.max.sub b.min).to_size

/-- `TypedBox2D::inflate`, from the source, faithful to line 246: the
`y` coordinate of the returned `max` is computed as `self.max.x + height`
(not `self.max.y + height`). -/
def Box2D.inflate (b : Box2D) (width height : ℚ) : Box2D :=
  ⟨point2 (b.min.x - width) (b.min.y - height),
   point2 (b.max.x + width) (b.max.x + height)⟩

/-- `TypedBox2D::inner_box`, from the source: `min + (left, top)`,
`max - (right, bottom)` (the debug assertions do not affect the value). -/
def Box2D.inner_box (b : Box2D) (offsets : SideOffsets2D) : Box2D :=
  ⟨b.min.addv (vec2 offsets.left offsets.top),
   b.max.subv (vec2 offsets.right offsets.bottom)⟩

/-- `TypedBox2D::outer_box`, from the source: `min - (left, top)`,
`max + (right, bottom)`. -/
def Box2D.outer_box (b : Box2D) (offsets : SideOffsets2D) : Box2D :=
  ⟨b.min.subv (vec2 offsets.left offsets.top),
   b.max.addv (vec2 offsets.right offsets.bottom)⟩

/-- `TypedBox2D::union`, from the source: componentwise `min` of the
`min` corners and `max` of the `max` corners. -/
def Box2D.union (a other : Box2D) : Box2D :=
  ⟨point2 (amin a.min.x other.min.x) (amin a.min.y other.min.y),
   point2 (amax a.max.x other.max.x) (amax a.max.y other.max.y)⟩

/-- The running `(min_x, min_y, max_x, max_y)` accumulator of
`from_points`. -/
structure MinMaxState where
  min_x : ℚ
  min_y : ℚ
  max_x : ℚ
  max_y : ℚ
deriving DecidableEq, Repr

/-- The `assign_min_max` closure inside `from_points`, from the source:
four independent strict-comparison updates. -/
def assign_min_max (st : MinMaxState) (p : Point2D) : MinMaxState :=
  ⟨if p.x < st.min_x then p.x else st.min_x,
   if p.y < st.min_y then p.y else st.min_y,
   if p.x > st.max_x then p.x else st.max_x,
   if p.y > st.max_y then p.y else st.max_y⟩

/-- `TypedBox2D::from_points`, from the source, with the iterator embedded
as a list: an empty iterator and a one-element iterator both return
`zero()`; otherwise the accumulator is seeded from the first point and
updated by `assign_min_max` for the second and all later points. -/
def Box2D.from_points : List Point2D → Box2D
  | [] => Box2D.zero
  | [_] => Box2D.zero
  | first :: second :: rest =>
    let st0 : MinMaxState := ⟨first.x, first.y, first.x, first.y⟩
    let st := rest.foldl assign_min_max (assign_min_max st0 second)
    ⟨point2 st.min_x st.min_y, point2 st.max_x st.max_y⟩

/-- `TypedBox2D::round`, from the source: both corners rounded
componentwise with `floor(n + 0.5)`. -/
def Box2D.round (b : Box2D) : Box2D := ⟨b.min.round, b.max.round⟩

/-- `TypedBox2D::round_in`, from the source: `min` rounded up, `max`
rounded down. -/
def Box2D.round_in (b : Box2D) : Box2D := ⟨b.min.ceil, b.max.floor⟩

/-- `TypedBox2D::round_out`, from the source: `min` rounded down, `max`
rounded up. -/
def Box2D.round_out (b : Box2D) : Box2D :=
  ⟨point2 ((⌊b.min.x⌋ : ℤ) : ℚ) ((⌊b.min.y⌋ : ℤ) : ℚ),
   point2 ((⌈b.max.x⌉ : ℤ) : ℚ) ((⌈b.max.y⌉ : ℤ) : ℚ)⟩

/-- Componentwise minimum of a list of coordinates starting from `start`
(stated from the claim, to characterise `from_points`). -/
def listMin (start : ℚ) (l : List ℚ) : ℚ := l.foldl min start

/-- Componentwise maximum of a list of coordinates starting from `start`
(stated from the claim, to characterise `from_points`). -/
def listMax (start : ℚ) (l : List ℚ) : ℚ := l.foldl max start

theorem if_lt_eq_min (a b : ℚ) : (if a < b then a else b) = min b a := by
  rcases lt_or_ge a b with h | h
  · rw [if_pos h, min_eq_right h.le]
  · rw [if_neg (not_lt.mpr h), min_eq_left h]

theorem if_gt_eq_max (a b : ℚ) : (if a > b then a else b) = max b a := by
  rcases lt_or_ge b a with h | h
  · rw [if_pos h, max_eq_right h.le]
  · rw [if_neg (not_lt.mpr h), max_eq_left h]

theorem amin_eq (a b : ℚ) : amin a b = min b a := by
  unfold amin; exact if_lt_eq_min a b

theorem amax_eq (a b : ℚ) : amax a b = max b a := by
  unfold amax; exact if_gt_eq_max a b

theorem amin_comm (a b : ℚ) : amin a b = amin b a := by
  rw [amin_eq, amin_eq, min_comm]

theorem amax_comm (a b : ℚ) : amax a b = amax b a := by
  rw [amax_eq, amax_eq, max_comm]

theorem contains_box_eq (b other : Box2D) :
    b.contains_box other = true ↔
      (other.is_empty = true
        ∨ (b.min.x ≤ other.min.x ∧ other.max.x ≤ b.max.x
            ∧ b.min.y ≤ other.min.y ∧ other.max.y ≤ b.max.y)) := by
  simp [Box2D.contains_box, and_assoc]

/-- C2: `contains` is the half-open membership test, closed on the left
and open on the right in x, open on the left and closed on the right
in y. -/
theorem contains_iff (b : Box2D) (p : Point2D) :
    b.contains p = true ↔
      (b.min.x ≤ p.x ∧ p.x < b.max.x ∧ b.min.y < p.y ∧ p.y ≤ b.max.y) := by
  simp [Box2D.contains, and_assoc]

theorem contains_iff_witness :
    (Box2D.mk (point2 0 0) (point2 2 2)).contains (point2 1 1) = true ↔
      ((Box2D.mk (point2 0 0) (point2 2 2)).min.x ≤ (point2 1 1).x
        ∧ (point2 1 1).x < (Box2D.mk (point2 0 0) (point2 2 2)).max.x
        ∧ (Box2D.mk (point2 0 0) (point2 2 2)).min.y < (point2 1 1).y
        ∧ (point2 1 1).y ≤ (Box2D.mk (point2 0 0) (point2 2 2)).max.y) :=
  contains_iff (Box2D.mk (point2 0 0) (point2 2 2)) (point2 1 1)

/-- C6: `intersects` holds exactly when the boxes overlap with strict
inequality on all four sides; touching boxes do not intersect. -/
theorem intersects_iff (a b : Box2D) :
    a.intersects b = true ↔
      (a.min.x < b.max.x ∧ a.max.x > b.min.x
        ∧ a.min.y < b.max.y ∧ a.max.y > b.min.y) := by
  simp [Box2D.intersects, and_assoc]

theorem intersects_iff_witness :
    (Box2D.mk (point2 0 0) (point2 1 1)).intersects
      (Box2D.mk (point2 1 0) (point2 2 1)) = false := by
  have h := intersects_iff (Box2D.mk (point2 0 0) (point2 1 1))
    (Box2D.mk (point2 1 0) (point2 2 1))
  rw [Bool.eq_false_iff, ne_eq, h]
  decide

/-- C9: `intersects` is symmetric in its two arguments. -/
theorem intersects_comm (a b : Box2D) : a.intersects b = b.intersects a := by
  simp only [Box2D.intersects, ← Bool.decide_and]
  rw [decide_eq_decide]
  constructor <;> intro h <;> tauto

/-- C7: `intersection` and `union` are both commutative. -/
theorem intersection_union_comm (a b : Box2D) :
    a.intersection b = b.intersection a ∧ a.union b = b.union a := by
  constructor
  · simp only [Box2D.intersection, point2]
    rw [amax_comm a.min.x, amax_comm a.min.y, amin_comm a.max.x, amin_comm a.max.y]
  · simp only [Box2D.union, point2]
    rw [amin_comm a.min.x, amin_comm a.min.y, amax_comm a.max.x, amax_comm a.max.y]

/-- C8: applying `outer_box` and then `inner_box` with the same side
offsets is the identity, since each corner is shifted out and then back
by the same vector. -/
theorem outer_inner_box_id (a : Box2D) (o : SideOffsets2D) :
    (a.outer_box o).inner_box o = a := by
  ext <;>
    simp [Box2D.outer_box, Box2D.inner_box, Point2D.addv, Point2D.subv, vec2]

/-- C4: `try_intersection` returns none exactly when the computed
intersection is negative, and otherwise returns some of exactly that
intersection (so a zero-area touching intersection is returned as some). -/
theorem try_intersection_spec (a b : Box2D) :
    (a.try_intersection b = none ↔ (a.intersection b).is_negative = true)
    ∧ ((a.intersection b).is_negative = false →
        a.try_intersection b = some (a.intersection b)) := by
  unfold Box2D.try_intersection
  cases h : (a.intersection b).is_negative <;> simp [h]

theorem try_intersection_spec_witness :
    (Box2D.mk (point2 0 0) (point2 1 1)).try_intersection
        (Box2D.mk (point2 1 0) (point2 2 1))
      = some ((Box2D.mk (point2 0 0) (point2 1 1)).intersection
        (Box2D.mk (point2 1 0) (point2 2 1))) :=
  (try_intersection_spec (Box2D.mk (point2 0 0) (point2 1 1))
    (Box2D.mk (point2 1 0) (point2 2 1))).2 (by decide)

/-- C1: the claim fails on the source. At the box with corners (0,0) and
(1,2), `inflate 0 0` returns the box with max = (1,1), not the original
box, because the source computes the returned max.y as `max.x + height`;
consequently the claimed size identity
`inflate(w,h).size() == size() + (2w,2h)` also fails there. -/
theorem inflate_bug :
    (Box2D.mk (point2 0 0) (point2 1 2)).inflate 0 0
        = Box2D.mk (point2 0 0) (point2 1 1)
    ∧ (Box2D.mk (point2 0 0) (point2 1 2)).inflate 0 0
        ≠ Box2D.mk (point2 0 0) (point2 1 2)
    ∧ ((Box2D.mk (point2 0 0) (point2 1 2)).inflate 0 0).size
        ≠ ((Box2D.mk (point2 0 0) (point2 1 2)).size.add (size2 (2*0) (2*0))) := by
  refine ⟨?_, ?_, ?_⟩ <;>
    norm_num [Box2D.inflate, Box2D.size, Point2D.sub, Vector2D.to_size,
      Size2D.add, size2, point2, Box2D.mk.injEq, Point2D.mk.injEq,
      Size2D.mk.injEq]

/-- C3: a box always contains its `round_in` (in particular when the
latter is well-formed), and `round_out` of a box always contains the
box. -/
theorem round_in_out_contains (a : Box2D) :
    (a.round_in.is_well_formed = true → a.contains_box a.round_in = true)
    ∧ a.round_out.contains_box a = true := by
  constructor
  · intro _
    rw [contains_box_eq]
    refine Or.inr ?_
    simp only [Box2D.round_in, Point2D.ceil, Point2D.floor]
    exact ⟨Int.le_ceil _, Int.floor_le _, Int.le_ceil _, Int.floor_le _⟩
  · rw [contains_box_eq]
    refine Or.inr ?_
    simp only [Box2D.round_out, point2]
    exact ⟨Int.floor_le _, Int.le_ceil _, Int.floor_le _, Int.le_ceil _⟩

theorem round_in_out_contains_witness :
    (Box2D.mk (point2 0 0) (point2 1 1)).contains_box
        (Box2D.mk (point2 0 0) (point2 1 1)).round_in = true
    ∧ (Box2D.mk (point2 0 0) (point2 1 1)).round_out.contains_box
        (Box2D.mk (point2 0 0) (point2 1 1)) = true :=
  ⟨(round_in_out_contains (Box2D.mk (point2 0 0) (point2 1 1))).1
      (by simp [Box2D.round_in, Box2D.is_well_formed, Point2D.ceil,
        Point2D.floor, point2]),
   (round_in_out_contains (Box2D.mk (point2 0 0) (point2 1 1))).2⟩

theorem foldl_assign (l : List Point2D) (st : MinMaxState) :
    l.foldl assign_min_max st =
      ⟨listMin st.min_x (l.map Point2D.x), listMin st.min_y (l.map Point2D.y),
       listMax st.max_x (l.map Point2D.x), listMax st.max_y (l.map Point2D.y)⟩ := by
  induction l generalizing st with
  | nil => simp [listMin, listMax]
  | cons p ps ih =>
    rw [List.foldl_cons, ih]
    simp only [assign_min_max, List.map_cons, listMin, listMax,
      List.foldl_cons, if_lt_eq_min, if_gt_eq_max]

/-- C5: `from_points` returns `zero` on the empty list and on any
one-point list, and on two or more points returns the box whose min and
max are the componentwise minimum and maximum of all the points. -/
theorem from_points_spec :
    Box2D.from_points [] = Box2D.zero
    ∧ (∀ p : Point2D, Box2D.from_points [p] = Box2D.zero)
    ∧ ∀ (p q : Point2D) (rest : List Point2D),
        Box2D.from_points (p :: q :: rest) =
          Box2D.mk
            (point2 (listMin p.x ((q :: rest).map Point2D.x))
                    (listMin p.y ((q :: rest).map Point2D.y)))
            (point2 (listMax p.x ((q :: rest).map Point2D.x))
                    (listMax p.y ((q :: rest).map Point2D.y))) := by
  refine ⟨rfl, fun p => rfl, fun p q rest => ?_⟩
  simp only [Box2D.from_points]
  rw [foldl_assign]
  simp only [assign_min_max, List.map_cons, listMin, listMax,
    List.foldl_cons, if_lt_eq_min, if_gt_eq_max, point2]

/-- C10: for a well-formed box, `round` and `round_out` return well-formed
boxes; `round_in` offers no such guarantee, witnessed by the well-formed
box with both corners at (1/2, 1/2), whose `round_in` is ill-formed. -/
theorem round_round_out_preserve_wf (b : Box2D) (h : b.is_well_formed = true) :
    b.round.is_well_formed = true ∧ b.round_out.is_well_formed = true
    ∧ ∃ c : Box2D, c.is_well_formed = true ∧ c.round_in.is_well_formed = false := by
  have wf_iff : ∀ d : Box2D,
      d.is_well_formed = true ↔ (d.min.x ≤ d.max.x ∧ d.min.y ≤ d.max.y) := by
    intro d; simp [Box2D.is_well_formed]
  rw [wf_iff] at h
  obtain ⟨hx, hy⟩ := h
  refine ⟨?_, ?_, ?_⟩
  · rw [wf_iff]
    simp only [Box2D.round, Point2D.round, rround]
    constructor
    · exact_mod_cast Int.floor_le_floor (by linarith)
    · exact_mod_cast Int.floor_le_floor (by linarith)
  · rw [wf_iff]
    simp only [Box2D.round_out, point2]
    exact ⟨(Int.floor_le _).trans (hx.trans (Int.le_ceil _)),
           (Int.floor_le _).trans (hy.trans (Int.le_ceil _))⟩
  · refine ⟨Box2D.mk (point2 (1/2) (1/2)) (point2 (1/2) (1/2)), ?_, ?_⟩
    · rw [wf_iff]
      norm_num [point2]
    · rw [Bool.eq_false_iff, ne_eq, wf_iff]
      simp only [Box2D.round_in, Point2D.ceil, Point2D.floor, point2]
      intro hcon
      obtain ⟨h1, _⟩ := hcon
      have hc : (⌈(1:ℚ)/2⌉ : ℤ) = 1 := by norm_num [Int.ceil_eq_iff]
      have hf : (⌊(1:ℚ)/2⌋ : ℤ) = 0 := by norm_num [Int.floor_eq_iff]
      rw [hc, hf] at h1
      norm_num at h1

theorem round_round_out_preserve_wf_witness :
    (Box2D.mk (point2 0 0) (point2 1 2)).round.is_well_formed = true
    ∧ (Box2D.mk (point2 0 0) (point2 1 2)).round_out.is_well_formed = true
    ∧ ∃ c : Box2D, c.is_well_formed = true ∧ c.round_in.is_well_formed = false :=
  round_round_out_preserve_wf (Box2D.mk (point2 0 0) (point2 1 2)) (by decide)
